import Mathlib

/-!
Verification development for the mythx-models domain-model layer.

The repository defines request/response model classes that serialize to and
validate against JSON schemas.  We embed the JSON data model, the base
response contract (`validate`, `from_json`) from
`src/mythx_models/response/base.py`, the concrete `AuthLoginResponse` model
from `src/mythx_models/response/auth_login.py`, and the
`AnalysisInputRequest` model from `src/mythx_models/request/analysis_input.py`.

Python observable effects are made explicit: each operation returns its
outcome as an `Except` value (exceptions become `error`), the list of log
records it emitted, and, where mutation of an argument or of the receiver is
at issue, the post-call value of that object.
-/

/-- A parsed JSON value.  Python dicts become association lists of
key/value pairs (keys are unique in Python dicts; lookup takes the first
match, which coincides on such lists). -/
inductive Json where
  | null : Json
  | bool (b : Bool) : Json
  | num (n : Int) : Json
  | str (s : String) : Json
  | arr (xs : List Json) : Json
  | obj (kvs : List (String × Json)) : Json

/-- A schema violation raised by the external jsonschema library:
the offending path and a human-readable message (expected vs actual). -/
structure SchemaViolation where
  path : List String
  message : String
deriving Repr, DecidableEq

/-- The exception taxonomy of the model layer.  `responseValidation` embeds
the class `ResponseValidationError` from `mythx_models.exceptions` (its
definition is outside `src/`; per the spec it wraps the underlying
schema-violation details).  `jsonParse` embeds a JSON decode error from the
standard json module.  `keyError` embeds a missing-key (KeyError-class)
error from direct dict indexing. -/
inductive MythXError where
  | responseValidation (v : SchemaViolation) : MythXError
  | jsonParse (msg : String) : MythXError
  | keyError (k : String) : MythXError
deriving Repr, DecidableEq

/-- Whether an error is the schema-validation error class. -/
def MythXError.isValidationErr : MythXError → Bool
  | .responseValidation _ => true
  | _ => false

/-- Whether an error is the missing-key error class. -/
def MythXError.isKeyErr : MythXError → Bool
  | .keyError _ => true
  | _ => false

/-- A schema is represented semantically by its checker: the external
jsonschema library either accepts a candidate or reports a violation. -/
def SchemaCheck : Type := Json → Except SchemaViolation Unit

/-- Result of a `validate` call: the outcome (normal return or raised
exception), the log records emitted, and the candidate object after the
call (Python dicts are mutable, so mutation would show up here). -/
structure ValidateOut where
  outcome : Except MythXError Unit
  logs : List String
  cand : Json

/-- Result of a classmethod constructor such as `from_dict` or `from_json`:
the constructed instance or the raised exception, plus emitted logs. -/
structure PyResult (α : Type) where
  result : Except MythXError α
  logs : List String

namespace BaseResponse

/-- BaseResponse.validate from `src/mythx_models/response/base.py`.
If the class has no bound schema, log a warning naming the class and
return; otherwise run the jsonschema check and re-raise any violation
wrapped in a `ResponseValidationError`.  The body never writes to the
candidate, so the post-call candidate is the argument itself. -/
def validate (schema : Option SchemaCheck) (clsName : String) (candidate : Json) :
    ValidateOut :=
  match schema with
  | none =>
      { outcome := .ok ()
        logs := ["Cannot validate " ++ clsName ++ " without a schema"]
        cand := candidate }
  | some chk =>
      match chk candidate with
      | .ok () => { outcome := .ok (), logs := [], cand := candidate }
      | .error e =>
          { outcome := .error (.responseValidation e), logs := [], cand := candidate }

/-- BaseResponse.from_json from `src/mythx_models/response/base.py`:
parse the string as JSON, then delegate to the concrete from_dict.  The
standard json module is external; it is abstracted as the `loads`
argument, which either yields a parsed value or a decode-error message. -/
def from_json {α : Type} (concreteFromDict : Json → PyResult α)
    (loads : String → Except String Json) (s : String) : PyResult α :=
  match loads s with
  | .error msg => { result := .error (.jsonParse msg), logs := [] }
  | .ok v => concreteFromDict v

end BaseResponse

/-- Python dict indexing `j[k]`: raises a KeyError-class condition when the
key is absent (or the value is not a dict at all). -/
def Json.getItem (j : Json) (k : String) : Except MythXError Json :=
  match j with
  | .obj kvs =>
      match kvs.lookup k with
      | some v => .ok v
      | none => .error (.keyError k)
  | _ => .error (.keyError k)

/-- Modelled from the spec: the `auth.json` schema document bound by
`AuthLoginResponse` is not under `src/` (it is loaded from a file via
`resolve_schema`).  Per the spec its shape matches the field mapping
exactly: a JSON object with a required `jwtTokens` object member carrying
required string members `access` and `refresh`. -/
def authCheck : SchemaCheck := fun c =>
  match c with
  | .obj kvs =>
      match kvs.lookup "jwtTokens" with
      | none => .error { path := [], message := "jwtTokens is a required property" }
      | some jt =>
          match jt with
          | .obj kvs2 =>
              match kvs2.lookup "access" with
              | none =>
                  .error { path := ["jwtTokens"], message := "access is a required property" }
              | some (.str _) =>
                  match kvs2.lookup "refresh" with
                  | none =>
                      .error { path := ["jwtTokens"]
                               message := "refresh is a required property" }
                  | some (.str _) => .ok ()
                  | some _ =>
                      .error { path := ["jwtTokens", "refresh"]
                               message := "is not of type string" }
              | some _ =>
                  .error { path := ["jwtTokens", "access"]
                           message := "is not of type string" }
          | _ => .error { path := ["jwtTokens"], message := "is not of type object" }
  | _ => .error { path := [], message := "is not of type object" }

/-- AuthLoginResponse from `src/mythx_models/response/auth_login.py`.
Its `__init__` assigns the two arguments to the two attributes directly
(Python does not enforce the `str` annotations, so the fields hold
arbitrary values). -/
structure AuthLoginResponse where
  access_token : Json
  refresh_token : Json

namespace AuthLoginResponse

/-- The class-level bound schema of AuthLoginResponse (`auth.json`). -/
def schema : Option SchemaCheck := some authCheck

/-- AuthLoginResponse.from_dict: validate the dict against the bound
schema, then extract `d["jwtTokens"]["access"]` and
`d["jwtTokens"]["refresh"]` into a fresh instance. -/
def from_dict (d : Json) : PyResult AuthLoginResponse :=
  let v := BaseResponse.validate schema "AuthLoginResponse" d
  match v.outcome with
  | .error e => { result := .error e, logs := v.logs }
  | .ok () =>
      match (d.getItem "jwtTokens").bind (fun jt => jt.getItem "access") with
      | .error e => { result := .error e, logs := v.logs }
      | .ok a =>
          match (d.getItem "jwtTokens").bind (fun jt => jt.getItem "refresh") with
          | .error e => { result := .error e, logs := v.logs }
          | .ok r =>
              { result := .ok { access_token := a, refresh_token := r }, logs := v.logs }

/-- The dict literal built by AuthLoginResponse.to_dict from the current
field values. -/
def serialized (m : AuthLoginResponse) : Json :=
  .obj [("jwtTokens", .obj [("access", m.access_token), ("refresh", m.refresh_token)])]

/-- Result of a to_dict call: the returned dict or raised exception, any
logs, and the receiver after the call (mutation of `self` would show up
here). -/
structure ToDictOut where
  result : Except MythXError Json
  logs : List String
  self : AuthLoginResponse

/-- AuthLoginResponse.to_dict: build the dict from the current fields,
validate it against the bound schema (raising on mismatch), and return it.
The body never assigns to the receiver, so the post-call receiver is the
argument itself. -/
def to_dict (m : AuthLoginResponse) : ToDictOut :=
  let d := serialized m
  let v := BaseResponse.validate schema "AuthLoginResponse" d
  match v.outcome with
  | .error e => { result := .error e, logs := v.logs, self := m }
  | .ok () => { result := .ok d, logs := v.logs, self := m }

/-- AuthLoginResponse.from_json, inherited from the base class. -/
def from_json (loads : String → Except String Json) (s : String) :
    PyResult AuthLoginResponse :=
  BaseResponse.from_json from_dict loads s

end AuthLoginResponse

/-- Modelled from the spec: `AnalysisStatusRequest` (its file is not under
`src/`) is the parent request model; per the spec an analysis-input request
reuses the URL-building convention of an analysis-status request, which is
identified by a resource UUID field, overriding only the endpoint suffix. -/
structure AnalysisStatusRequest where
  uuid : String
deriving Repr, DecidableEq

/-- AnalysisInputRequest from `src/mythx_models/request/analysis_input.py`:
inherits the uuid field from AnalysisStatusRequest. -/
structure AnalysisInputRequest extends AnalysisStatusRequest
deriving Repr, DecidableEq

/-- AnalysisInputRequest.endpoint: the analysis request input endpoint
without the host prefix, formatted from the uuid. -/
def AnalysisInputRequest.endpoint (r : AnalysisInputRequest) : String :=
  "v1/analyses/" ++ r.uuid ++ "/input"

/-- The concrete login-response payload used in the spec scenarios. -/
def sampleLoginDict : Json :=
  .obj [("jwtTokens", .obj [("access", .str "a1"), ("refresh", .str "r1")])]

/-- When both token fields hold strings, the serialized dict of an
AuthLoginResponse instance deserializes back to the same instance with no
logs: the rebuilt dict satisfies the bound schema and field extraction
recovers the fields. -/
theorem serialized_str_from_dict (a r : String) :
    AuthLoginResponse.from_dict
        (AuthLoginResponse.serialized { access_token := .str a, refresh_token := .str r }) =
      { result := .ok { access_token := .str a, refresh_token := .str r }, logs := [] } :=
  rfl

/-- When both token fields hold strings, to_dict validates successfully and
returns the serialized dict. -/
theorem serialized_str_to_dict (a r : String) :
    AuthLoginResponse.to_dict { access_token := .str a, refresh_token := .str r } =
      { result := .ok (AuthLoginResponse.serialized
          { access_token := .str a, refresh_token := .str r })
        logs := []
        self := { access_token := .str a, refresh_token := .str r } } :=
  rfl

/-- C1: for every dict d that conforms to the bound schema,
AuthLoginResponse.from_dict d builds an instance m; m.to_dict() validates
successfully and returns the serialized dict, and from_dict of that dict
reconstructs an instance equal to m (in particular with equal
access_token and refresh_token fields). -/
theorem authLogin_from_dict_roundtrip (d : Json) (h : authCheck d = .ok ()) :
    ∃ m : AuthLoginResponse,
      AuthLoginResponse.from_dict d = { result := .ok m, logs := [] } ∧
      (AuthLoginResponse.to_dict m).result = .ok (AuthLoginResponse.serialized m) ∧
      AuthLoginResponse.from_dict (AuthLoginResponse.serialized m) =
        { result := .ok m, logs := [] } := by
  have h0 := h
  simp only [authCheck] at h
  split at h
  case _ kvs =>
    split at h
    case _ => exact absurd h (by simp)
    case _ jt hjt =>
      split at h
      case _ kvs2 =>
        split at h
        case _ => exact absurd h (by simp)
        case _ a hacc =>
          split at h
          case _ => exact absurd h (by simp)
          case _ r href =>
            refine ⟨{ access_token := .str a, refresh_token := .str r }, ?_, ?_, ?_⟩
            · simp [AuthLoginResponse.from_dict, AuthLoginResponse.schema,
                BaseResponse.validate, h0, Json.getItem, Except.bind, hjt, hacc, href]
            · rw [serialized_str_to_dict]
            · exact serialized_str_from_dict a r
          case _ => exact absurd h (by simp)
        case _ => exact absurd h (by simp)
      case _ => exact absurd h (by simp)
  all_goals exact absurd h (by simp)

/-- Witness for C1 at the concrete schema-conformant login payload. -/
theorem authLogin_from_dict_roundtrip_witness :
    ∃ m : AuthLoginResponse,
      AuthLoginResponse.from_dict sampleLoginDict = { result := .ok m, logs := [] } ∧
      (AuthLoginResponse.to_dict m).result = .ok (AuthLoginResponse.serialized m) ∧
      AuthLoginResponse.from_dict (AuthLoginResponse.serialized m) =
        { result := .ok m, logs := [] } :=
  authLogin_from_dict_roundtrip sampleLoginDict rfl

/-- C2: for every dict d that fails the bound schema with violation v,
AuthLoginResponse.from_dict d raises the wrapping ResponseValidationError
and constructs no instance (the result carries an error, not a model). -/
theorem authLogin_from_dict_invalid_raises (d : Json) (v : SchemaViolation)
    (h : authCheck d = .error v) :
    AuthLoginResponse.from_dict d =
      { result := .error (.responseValidation v), logs := [] } := by
  simp [AuthLoginResponse.from_dict, AuthLoginResponse.schema,
    BaseResponse.validate, h]

/-- Witness for C2 at a concrete schema-violating value. -/
theorem authLogin_from_dict_invalid_raises_witness :
    AuthLoginResponse.from_dict .null =
      { result := .error (.responseValidation
          { path := [], message := "is not of type object" })
        logs := [] } :=
  authLogin_from_dict_invalid_raises .null
    { path := [], message := "is not of type object" } rfl

/-- C3: for a class whose schema attribute is None, validate returns
normally, emits exactly one warning log record naming the class, and has
no other effect (the candidate is unchanged). -/
theorem validate_no_schema_warns (clsName : String) (candidate : Json) :
    BaseResponse.validate none clsName candidate =
      { outcome := .ok ()
        logs := ["Cannot validate " ++ clsName ++ " without a schema"]
        cand := candidate } :=
  rfl

/-- C4: for every bound schema and candidate the schema rejects with
violation v, validate raises a ResponseValidationError wrapping exactly v,
and validate leaves the candidate unchanged on every path. -/
theorem validate_bound_schema_error (chk : SchemaCheck) (clsName : String)
    (c : Json) (v : SchemaViolation) (h : chk c = .error v) :
    BaseResponse.validate (some chk) clsName c =
      { outcome := .error (.responseValidation v), logs := [], cand := c } ∧
    ∀ (sch : Option SchemaCheck) (n : String) (c2 : Json),
      (BaseResponse.validate sch n c2).cand = c2 := by
  constructor
  · simp [BaseResponse.validate, h]
  · intro sch n c2
    unfold BaseResponse.validate
    rcases sch with _ | chk2
    · rfl
    · rcases h2 : chk2 c2 with _ | u
      · simp [h2]
      · simp [h2]

/-- Witness for C4 at a concrete rejecting schema and candidate. -/
theorem validate_bound_schema_error_witness :
    (BaseResponse.validate (some authCheck) "AuthLoginResponse" .null =
      { outcome := .error (.responseValidation
          { path := [], message := "is not of type object" })
        logs := []
        cand := .null }) ∧
    ∀ (sch : Option SchemaCheck) (n : String) (c2 : Json),
      (BaseResponse.validate sch n c2).cand = c2 :=
  validate_bound_schema_error authCheck "AuthLoginResponse" .null
    { path := [], message := "is not of type object" } rfl

/-- C5: from_json is exactly parse-then-delegate: on a string the parser
rejects it raises a JSON-parse error (whose class is distinct from the
schema-validation error class), and on a string parsing to v it returns
exactly from_dict v. -/
theorem from_json_parse_then_delegate (α : Type) (concreteFromDict : Json → PyResult α)
    (loads : String → Except String Json) (s : String) :
    BaseResponse.from_json concreteFromDict loads s =
      (match loads s with
       | .error msg => { result := .error (.jsonParse msg), logs := [] }
       | .ok v => concreteFromDict v) ∧
    ∀ msg : String, (MythXError.jsonParse msg).isValidationErr = false :=
  ⟨rfl, fun _ => rfl⟩

/-- C6: from_dict on the concrete login payload yields the instance with
access_token "a1" and refresh_token "r1", and to_dict on that instance
returns exactly the same payload. -/
theorem authLogin_concrete_scenario :
    AuthLoginResponse.from_dict sampleLoginDict =
      { result := .ok { access_token := .str "a1", refresh_token := .str "r1" }
        logs := [] } ∧
    (AuthLoginResponse.to_dict
        { access_token := .str "a1", refresh_token := .str "r1" }).result =
      .ok sampleLoginDict :=
  ⟨rfl, rfl⟩

/-- C7: from_dict on the payload missing the required nested key refresh
raises the schema-validation error (identifying the missing required
property), which is not a missing-key error. -/
theorem authLogin_missing_refresh_is_validation_error :
    AuthLoginResponse.from_dict (.obj [("jwtTokens", .obj [("access", .str "a1")])]) =
      { result := .error (.responseValidation
          { path := ["jwtTokens"], message := "refresh is a required property" })
        logs := [] } ∧
    (MythXError.responseValidation
        { path := ["jwtTokens"], message := "refresh is a required property" }).isKeyErr
      = false :=
  ⟨rfl, rfl⟩

/-- C8: endpoint is a pure function of the uuid field returning the
relative path, and at uuid "abc-123" it is "v1/analyses/abc-123/input". -/
theorem analysisInput_endpoint_spec :
    (∀ r : AnalysisInputRequest, r.endpoint = "v1/analyses/" ++ r.uuid ++ "/input") ∧
    AnalysisInputRequest.endpoint { uuid := "abc-123" } = "v1/analyses/abc-123/input" :=
  ⟨fun _ => rfl, by decide⟩

/-- C9: direct construction with any two strings succeeds, performs no
validation, and stores exactly the given tokens; moreover a
directly-constructed instance can hold state its own to_dict rejects
(here a non-string access token). -/
theorem authLogin_direct_construction (a r : String) :
    (AuthLoginResponse.mk (.str a) (.str r)).access_token = .str a ∧
    (AuthLoginResponse.mk (.str a) (.str r)).refresh_token = .str r ∧
    (AuthLoginResponse.to_dict
        { access_token := .num 0, refresh_token := .str "r1" }).result =
      .error (.responseValidation
        { path := ["jwtTokens", "access"], message := "is not of type string" }) :=
  ⟨rfl, rfl, rfl⟩

/-- C10: to_dict never mutates the instance: the receiver after the call
equals the receiver before it, on the success path and the failure path
alike. -/
theorem authLogin_to_dict_preserves_self (m : AuthLoginResponse) :
    (AuthLoginResponse.to_dict m).self = m := by
  simp only [AuthLoginResponse.to_dict]
  split <;> rfl
